import Mathlib

/-!
Shallow embedding of `src/Fp.py`, a scanner that expands the IPv4 address
blocks of a network operator, probes each address for a Cloudflare edge
signature, and writes accepted probes to a CSV file.

Addresses are modelled as natural numbers below 2^32; durations are modelled
in centi-units (hundredths of one time unit), the exact resolution of the
source's two-decimal latency formatting.
-/

namespace Fp

/-- `REQUEST_URL` constant from the source: the fixed diagnostic endpoint. -/
def REQUEST_URL : String := "https://speed.cloudflare.com/cdn-cgi/trace"

/-- `TIMEOUT = 1` time unit, in centi-units. -/
def TIMEOUT : Nat := 100

/-- `MAX_DURATION = 2` time units, in centi-units. -/
def MAX_DURATION : Nat := 200

/-- `DEFAULT_PORT = 443`. -/
def DEFAULT_PORT : Nat := 443

/-! ## Address-Range Expander (`generate_ips`, Python `ip_network(..).hosts()`) -/

/-- The network address of the block `a/p`: `a` with its low `32 - p` host
bits cleared.  `ip_network(cidr, strict=False)` masks the host bits this way. -/
def networkAddr (a p : Nat) : Nat := a - a % 2 ^ (32 - p)

/-- The broadcast address of the block `a/p`: the network address with all
host bits set. -/
def broadcastAddr (a p : Nat) : Nat := networkAddr a p + (2 ^ (32 - p) - 1)

/-- Python `IPv4Network.hosts()`: for prefix length `p ≤ 30` every address
strictly between the network and broadcast addresses, in ascending order;
for `p = 31` both addresses of the pair; for `p = 32` the single address. -/
def hosts (a p : Nat) : List Nat :=
  if p = 32 then [networkAddr a p]
  else if p = 31 then [networkAddr a p, networkAddr a p + 1]
  else (List.range (2 ^ (32 - p) - 2)).map (fun i => networkAddr a p + 1 + i)

/-- `generate_ips(cidr)`: the list of host addresses of the block.  The
source converts each address to its dotted-quad string; that conversion is
injective and order-preserving, so the claims about length, duplicates and
order are stated on the numeric addresses. -/
def generate_ips (a p : Nat) : List Nat := hosts a p

/-! ## Block-level processing in `main` (lines 97-99)

`main` iterates over the operator's CIDR blocks and calls `generate_ips`
on each; a malformed specification makes `ip_network` raise `ValueError`,
which nothing in `main` catches. -/

/-- A CIDR block specification as handed to `generate_ips`: either it parses
to a base address and prefix length, or `ip_network` rejects it. -/
inductive BlockSpec where
  | valid (a p : Nat)
  | malformed (s : String)
deriving DecidableEq, Repr

/-- One `generate_ips(cidr)` call viewed with its error channel: a malformed
specification raises (`ValueError` from `ip_network`). -/
def generate_ips_block : BlockSpec → Except String (List Nat)
  | .valid a p => .ok (generate_ips a p)
  | .malformed s => .error ("invalid CIDR: " ++ s)

/-- The block loop of `main` (lines 97-99): expand each block in turn and
submit its addresses.  An exception from `generate_ips` propagates — the
loop body has no handler — so the first malformed block aborts the whole
expansion. -/
def expandBlocks : List BlockSpec → Except String (List Nat)
  | [] => .ok []
  | b :: rest =>
    match generate_ips_block b with
    | .error e => .error e
    | .ok ips =>
      match expandBlocks rest with
      | .error e => .error e
      | .ok more => .ok (ips ++ more)

/-- Does a block specification parse under `ip_network`? -/
def BlockSpec.isValid : BlockSpec → Bool
  | .valid _ _ => true
  | .malformed _ => false

/-- Modelled from the spec: the behaviour §7 describes for `InvalidBlock`
(`skips that block only`) — a malformed block is dropped and the remaining
blocks are still expanded.  Stated for comparison with `expandBlocks`,
the behaviour of the source. -/
def expandBlocksSkip : List BlockSpec → List Nat
  | [] => []
  | .valid a p :: rest => generate_ips a p ++ expandBlocksSkip rest
  | .malformed _ :: rest => expandBlocksSkip rest

/-! ## Endpoint Prober (`process_ip`, lines 53-78) -/

/-- A location-table entry (`locations.json` record).  The source reads the
`region` and `city` keys with `dict.get(key, '')`; a key can be absent, so
the fields are optional here. -/
structure Loc where
  region : Option String
  city : Option String
deriving DecidableEq, Repr

/-- The map built by `create_location_map`, keyed by `iata` code.
`location_map.get(code, {})` is lookup returning `none` for absent codes. -/
def LocationMap : Type := String → Option Loc

/-- The dictionary `process_ip` returns on acceptance. -/
structure ResultRecord where
  ip : String
  port : Nat
  data_center : String
  region : String
  city : String
  latency : String
deriving DecidableEq, Repr

/-- The environment of one probe: the outcomes of the external effects
`process_ip` performs, in program order.  `tcpDuration` and `responseTime`
are elapsed times since `start`, in centi-units. -/
structure ProbeEnv where
  /-- `socket.create_connection` returns within `TIMEOUT` (else it raises). -/
  connOk : Bool
  /-- `time.time() - start` right after the connection, the `tcp_duration`. -/
  tcpDuration : Nat
  /-- `requests.get(REQUEST_URL, timeout=TIMEOUT)` returns (else it raises). -/
  reqOk : Bool
  /-- `time.time() - start` after the validation response, `response_time`. -/
  responseTime : Nat
  /-- `response.text`. -/
  responseText : String
  /-- the `print` of the accepted record succeeds (a raising `print` is
  swallowed by the same `except` clause). -/
  printOk : Bool
deriving DecidableEq, Repr

/-- `'A' <= c <= 'Z'`: the character class of the regex group `[A-Z]+`. -/
def isUpperAlpha (c : Char) : Bool := 'A' ≤ c && c ≤ 'Z'

/-- Does `pat` occur at the head of `cs`? -/
def startsWith : List Char → List Char → Bool
  | [], _ => true
  | _ :: _, [] => false
  | p :: ps, c :: cs => p == c && startsWith ps cs

/-- Python's `pat in text` substring test. -/
def containsSub (pat : List Char) : List Char → Bool
  | [] => startsWith pat []
  | c :: cs => startsWith pat (c :: cs) || containsSub pat cs

/-- The fixed client-signature marker of line 62. -/
def markerChars : List Char := "uag=Mozilla/5.0".toList

/-- Try to match the regex `colo=([A-Z]+)` anchored at the head of the text:
the literal `colo=` followed by the maximal nonempty run of `[A-Z]`. -/
def coloAt (cs : List Char) : Option (List Char) :=
  match cs with
  | 'c' :: 'o' :: 'l' :: 'o' :: '=' :: rest =>
    let u := rest.takeWhile isUpperAlpha
    if u.isEmpty then none else some u
  | _ => none

/-- `re.search(r'colo=([A-Z]+)', text)`: the group of the leftmost match. -/
def searchColo : List Char → Option (List Char)
  | [] => none
  | c :: rest =>
    match coloAt (c :: rest) with
    | some u => some u
    | none => searchColo rest

/-- Render `n < 100` with exactly two digits. -/
def twoDigits (n : Nat) : String := (if n < 10 then "0" else "") ++ toString n

/-- The f-string `f"{tcp_duration:.2f} ms"` on a duration of `c` centi-units:
fixed-point with two decimals, a space, and the unit label. -/
def formatLatency (c : Nat) : String :=
  toString (c / 100) ++ "." ++ twoDigits (c % 100) ++ " ms"

/-- The body of `process_ip`'s `try` block (lines 55-75), with the error
channel explicit: `.error` is a raised exception, `.ok none` is the
fall-through `return None`, `.ok (some r)` the accepted record. -/
def process_ip_body (ip : String) (port : Nat) (location_map : LocationMap)
    (env : ProbeEnv) : Except String (Option ResultRecord) :=
  if !env.connOk then .error "connection failed"
  else
    let tcp_duration := env.tcpDuration
    if !env.reqOk then .error "request failed"
    else if env.responseTime > MAX_DURATION then .error "Request took too long"
    else if containsSub markerChars env.responseText.toList then
      match searchColo env.responseText.toList with
      | some code =>
        let data_center := String.mk code
        let loc := location_map data_center
        if !env.printOk then .error "print failed"
        else .ok (some {
          ip := ip
          port := port
          data_center := data_center
          region := ((loc.bind Loc.region).getD "")
          city := ((loc.bind Loc.city).getD "")
          latency := formatLatency tcp_duration })
      | none => .ok none
    else .ok none

/-- `process_ip` (lines 53-78): the `try`/`except Exception: pass` wrapper —
every raised exception collapses to the final `return None`. -/
def process_ip (ip : String) (port : Nat) (location_map : LocationMap)
    (env : ProbeEnv) : Option ResultRecord :=
  match process_ip_body ip port location_map env with
  | .ok r => r
  | .error _ => none

/-! ## Result Sink (`prepare_output_file`, lines 39-41; `main`, lines 101-108) -/

/-- The header `csv.DictWriter(...).writeheader()` writes for the fixed
`fieldnames` list of line 102. -/
def headerRow : String := "ip,port,data_center,region,city,latency"

/-- `csv` excel-dialect minimal quoting: a field holding a comma, a quote or
a line break is wrapped in double quotes, embedded quotes doubled. -/
def csvField (s : String) : String :=
  if s.toList.any (fun c => c = ',' || c = '"' || c = '\n' || c = '\r') then
    "\"" ++ String.mk (s.toList.flatMap (fun c => if c = '"' then ['"', '"'] else [c])) ++ "\""
  else s

/-- The row `writer.writerow(result)` produces for one accepted record. -/
def toCsvRow (r : ResultRecord) : String :=
  String.intercalate "," [csvField r.ip, toString r.port, csvField r.data_center,
    csvField r.region, csvField r.city, csvField r.latency]

/-- The content of the output file after the writer loop of lines 101-108:
the header, then one row per accepted (non-`None`) outcome, in the order
the outcomes complete; `if result:` drops the `None`s. -/
def writeResults (outcomes : List (Option ResultRecord)) : List String :=
  headerRow :: outcomes.filterMap (fun o => o.map toCsvRow)

/-- A flat file system: name to content (a list of lines), `none` = absent. -/
def FileSystem : Type := String → Option (List String)

/-- `prepare_output_file` (lines 39-41): delete the file if it exists. -/
def prepare_output_file (fs : FileSystem) (out_file : String) : FileSystem :=
  fun n => if n = out_file then none else fs n

/-- One operator's sink run: `prepare_output_file`, then `open(out_file, 'w')`
and the writer loop, leaving `writeResults outcomes` as the file's content. -/
def runSink (fs : FileSystem) (out_file : String)
    (outcomes : List (Option ResultRecord)) : FileSystem :=
  let fs1 := prepare_output_file fs out_file
  fun n => if n = out_file then some (writeResults outcomes) else fs1 n

/-- A sample accepted record, for concrete instantiations. -/
def sampleRecord : ResultRecord :=
  { ip := "1.0.0.1", port := 443, data_center := "SFO",
    region := "CA", city := "SF", latency := "0.12 ms" }

/-- A sample completion-order outcome list: one accepted between two
rejected probes. -/
def sampleOutcomes : List (Option ResultRecord) :=
  [none, some sampleRecord, none]

/-! ## Theorems -/

/-- C2, counterexample: the block `0.0.0.0/31` is a valid IPv4 block, yet
`hosts()` yields its two addresses — length `2 ≠ 2 ^ (32 - 31) - 2 = 0` —
and the yielded addresses include the network address. -/
theorem C2_counterexample :
    ¬ ((generate_ips 0 31).length = 2 ^ (32 - 31) - 2 ∧
       networkAddr 0 31 ∉ generate_ips 0 31) := by
  decide

/-- C2, amended: for every IPv4 block of prefix length `p ≤ 30`, the
expanded sequence has length exactly `2 ^ (32 - p) - 2`, is strictly
ascending, has no duplicates, and excludes the block's network and
broadcast addresses.  (For `p = 31` and `p = 32`, Python's `hosts()`
instead yields every address of the block, endpoints included.) -/
theorem C2_hosts_correct (a p : Nat) (hp : p ≤ 30) :
    (generate_ips a p).length = 2 ^ (32 - p) - 2 ∧
    List.Sorted (· < ·) (generate_ips a p) ∧
    (generate_ips a p).Nodup ∧
    networkAddr a p ∉ generate_ips a p ∧
    broadcastAddr a p ∉ generate_ips a p := by
  have h32 : p ≠ 32 := by omega
  have h31 : p ≠ 31 := by omega
  have hpow : 4 ≤ 2 ^ (32 - p) := by
    calc (4 : Nat) = 2 ^ 2 := by norm_num
    _ ≤ 2 ^ (32 - p) := Nat.pow_le_pow_right (by norm_num) (by omega)
  simp only [generate_ips, hosts, if_neg h32, if_neg h31, broadcastAddr]
  set net := networkAddr a p with hnet
  set q := 2 ^ (32 - p) with hq
  refine ⟨by simp, ?_, ?_, ?_, ?_⟩
  · exact (List.sorted_lt_range _).map (fun i => net + 1 + i)
      (fun x y hxy => Nat.add_lt_add_left hxy (net + 1))
  · exact ((List.sorted_lt_range _).map (fun i => net + 1 + i)
      (fun x y hxy => Nat.add_lt_add_left hxy (net + 1))).nodup
  · intro hmem
    obtain ⟨i, hi, hfi⟩ := List.mem_map.mp hmem
    omega
  · intro hmem
    obtain ⟨i, hi, hfi⟩ := List.mem_map.mp hmem
    rw [List.mem_range] at hi
    omega

/-- Characterization of an accepted probe: the record `process_ip` returns
is built from the extracted `colo` code, the location map and the
connection time, with the candidate contributing only `ip` and `port`. -/
theorem process_ip_some_shape (ip : String) (port : Nat) (m : LocationMap)
    (env : ProbeEnv) (r : ResultRecord)
    (h : process_ip ip port m env = some r) :
    ∃ code, searchColo env.responseText.toList = some code ∧
      r = { ip := ip, port := port, data_center := String.mk code,
            region := ((m (String.mk code)).bind Loc.region).getD "",
            city := ((m (String.mk code)).bind Loc.city).getD "",
            latency := formatLatency env.tcpDuration } := by
  unfold process_ip process_ip_body at h
  split at h
  case h_2 => exact Option.noConfusion h
  subst h
  rename_i heq
  repeat' split at heq
  all_goals simp_all [String.toList]

/-- The accepted-versus-rejected classification of a probe, as a boolean
function of the environment alone. -/
theorem process_ip_isSome (ip : String) (port : Nat) (m : LocationMap)
    (env : ProbeEnv) :
    (process_ip ip port m env).isSome =
      (env.connOk && env.reqOk && decide (env.responseTime ≤ MAX_DURATION) &&
       containsSub markerChars env.responseText.toList &&
       (searchColo env.responseText.toList).isSome && env.printOk) := by
  rcases hb : process_ip_body ip port m env with e | r
  case error =>
    have hnone : process_ip ip port m env = none := by simp [process_ip, hb]
    rw [hnone]
    unfold process_ip_body at hb
    repeat' split at hb
    all_goals try exact Except.noConfusion hb
    all_goals simp_all [String.toList, decide_eq_false]
  case ok =>
    have hr : process_ip ip port m env = r := by simp [process_ip, hb]
    rw [hr]
    unfold process_ip_body at hb
    repeat' split at hb
    all_goals try exact Except.noConfusion hb
    all_goals (injection hb with hb; subst hb)
    all_goals simp_all [String.toList, decide_eq_false]

/-- Each accepted outcome contributes exactly one CSV row. -/
theorem length_accepted (l : List (Option ResultRecord)) :
    (l.filterMap (fun o => o.map toCsvRow)).length
      = (l.filter Option.isSome).length := by
  induction l with
  | nil => rfl
  | cons o t ih => cases o <;> simp [ih]

/-- C1: for every candidate and every probe environment, `process_ip`
returns exactly one outcome — an accepted record or `none` — and whenever
the body raises (connection attempt, validation request, duration check,
or the `print` of the record failing), the exception is absorbed and the
outcome is `none`: no error ever reaches the caller. -/
theorem C1_process_ip_total (ip : String) (port : Nat) (m : LocationMap)
    (env : ProbeEnv) :
    (∃! r : Option ResultRecord, process_ip ip port m env = r) ∧
    (∀ e, process_ip_body ip port m env = .error e →
      process_ip ip port m env = none) := by
  refine ⟨⟨process_ip ip port m env, rfl, fun r h => h.symm⟩, ?_⟩
  intro e he
  simp [process_ip, he]

/-- C1, witness: the theorem at a candidate whose connection attempt fails. -/
theorem C1_process_ip_total_witness :
    (∃! r : Option ResultRecord,
      process_ip "1.2.3.4" 443 (fun _ => none)
        ⟨false, 0, false, 0, "", true⟩ = r) ∧
    (∀ e, process_ip_body "1.2.3.4" 443 (fun _ => none)
        ⟨false, 0, false, 0, "", true⟩ = .error e →
      process_ip "1.2.3.4" 443 (fun _ => none)
        ⟨false, 0, false, 0, "", true⟩ = none) :=
  C1_process_ip_total "1.2.3.4" 443 (fun _ => none) ⟨false, 0, false, 0, "", true⟩

/-- C3: a candidate whose connection and request succeed but whose total
round trip `response_time` exceeds `MAX_DURATION` is rejected, even when
the response body carries the signature marker and an extractable
`colo=` code. -/
theorem C3_duration_ceiling (ip : String) (port : Nat) (m : LocationMap)
    (env : ProbeEnv)
    (hconn : env.connOk = true) (hreq : env.reqOk = true)
    (ht : env.responseTime > MAX_DURATION)
    (_hmk : containsSub markerChars env.responseText.toList = true)
    (_hcolo : (searchColo env.responseText.toList).isSome = true) :
    process_ip ip port m env = none := by
  simp [process_ip, process_ip_body, hconn, hreq, ht]

/-- C3, witness: a probe taking 2.01 time units with a validating body. -/
theorem C3_duration_ceiling_witness :
    process_ip "1.0.0.1" 443 (fun _ => none)
      ⟨true, 10, true, 201, "colo=SFO uag=Mozilla/5.0", true⟩ = none :=
  C3_duration_ceiling "1.0.0.1" 443 (fun _ => none)
    ⟨true, 10, true, 201, "colo=SFO uag=Mozilla/5.0", true⟩
    rfl rfl (by decide) (by decide) (by decide)

/-- C4: a candidate whose connection and request succeed within the time
bounds is rejected when the response body lacks the literal marker
`uag=Mozilla/5.0` — whatever the measured latency — and likewise when the
marker is present but no `colo=([A-Z]+)` token matches. -/
theorem C4_signature_required (ip : String) (port : Nat) (m : LocationMap)
    (env : ProbeEnv)
    (hconn : env.connOk = true) (hreq : env.reqOk = true)
    (ht : ¬ env.responseTime > MAX_DURATION)
    (h : containsSub markerChars env.responseText.toList = false ∨
         searchColo env.responseText.toList = none) :
    process_ip ip port m env = none := by
  rcases h with h | h
  · simp only [String.toList] at h
    simp [process_ip, process_ip_body, hconn, hreq, ht, h]
  · simp only [String.toList] at h
    simp [process_ip, process_ip_body, hconn, hreq, ht, h]

/-- C4, witness: a fast response carrying neither marker nor `colo=` code. -/
theorem C4_signature_required_witness :
    process_ip "1.0.0.1" 443 (fun _ => none)
      ⟨true, 10, true, 50, "fl=4f ip=1.0.0.1", true⟩ = none :=
  C4_signature_required "1.0.0.1" 443 (fun _ => none)
    ⟨true, 10, true, 50, "fl=4f ip=1.0.0.1", true⟩
    rfl rfl (by decide) (Or.inl (by decide))

/-- C5, counterexample: on the block list `[valid, malformed, valid]` the
block loop of `main` aborts with the uncaught `ValueError` instead of
producing the expansion that skipping only the malformed block would
give. -/
theorem C5_counterexample :
    expandBlocks [.valid 0 30, .malformed "bad", .valid 256 30]
      = .error "invalid CIDR: bad" ∧
    expandBlocks [.valid 0 30, .malformed "bad", .valid 256 30]
      ≠ .ok (expandBlocksSkip [.valid 0 30, .malformed "bad", .valid 256 30]) := by
  constructor
  · rfl
  · intro h
    rw [show expandBlocks [.valid 0 30, .malformed "bad", .valid 256 30]
        = .error "invalid CIDR: bad" from rfl] at h
    exact Except.noConfusion h

/-- C5, amended: a malformed block specification is not skipped: `main`
has no handler around `generate_ips`, so the first malformed block in the
list aborts the whole expansion with its error and no later block is
expanded or probed. -/
theorem C5_malformed_aborts (pre post : List BlockSpec) (s : String)
    (hpre : ∀ b ∈ pre, b.isValid = true) :
    expandBlocks (pre ++ .malformed s :: post)
      = .error ("invalid CIDR: " ++ s) := by
  induction pre with
  | nil => simp [expandBlocks, generate_ips_block]
  | cons b rest ih =>
    have hb := hpre b (List.mem_cons_self b rest)
    have hrest := ih (fun x hx => hpre x (List.mem_cons_of_mem b hx))
    cases b with
    | valid a p => simp [expandBlocks, generate_ips_block, hrest]
    | malformed t => simp [BlockSpec.isValid] at hb

/-- C5, witness: the amended theorem on `[valid, malformed, valid]`. -/
theorem C5_malformed_aborts_witness :
    expandBlocks [.valid 0 30, .malformed "bad", .valid 256 30]
      = .error ("invalid CIDR: " ++ "bad") :=
  C5_malformed_aborts [.valid 0 30] [.valid 256 30] "bad" (by decide)

/-- C2, witness: the amended theorem at the concrete block `0.0.0.0/30`. -/
theorem C2_hosts_correct_witness :
    (generate_ips 0 30).length = 2 ^ (32 - 30) - 2 ∧
    List.Sorted (· < ·) (generate_ips 0 30) ∧
    (generate_ips 0 30).Nodup ∧
    networkAddr 0 30 ∉ generate_ips 0 30 ∧
    broadcastAddr 0 30 ∉ generate_ips 0 30 :=
  C2_hosts_correct 0 30 (by norm_num)

/-- C6: two candidates probed against the same fixed endpoint response —
same environment up to the connection latency — and both connecting
successfully receive the same accepted-versus-rejected classification,
and any accepted records agree on `data_center`, `region` and `city`:
only `ip`, `port` and `latency` vary with the candidate (the validation
request goes to the fixed `REQUEST_URL`, not through the candidate). -/
theorem C6_candidate_independence (ip1 ip2 : String) (port1 port2 d1 d2 : Nat)
    (m : LocationMap) (env : ProbeEnv) (_hconn : env.connOk = true) :
    ((process_ip ip1 port1 m { env with tcpDuration := d1 }).isSome =
     (process_ip ip2 port2 m { env with tcpDuration := d2 }).isSome) ∧
    (∀ r1 r2, process_ip ip1 port1 m { env with tcpDuration := d1 } = some r1 →
              process_ip ip2 port2 m { env with tcpDuration := d2 } = some r2 →
      r1.data_center = r2.data_center ∧ r1.region = r2.region ∧
        r1.city = r2.city) := by
  constructor
  · rw [process_ip_isSome, process_ip_isSome]
  · intro r1 r2 h1 h2
    obtain ⟨c1, hc1, rfl⟩ := process_ip_some_shape _ _ _ _ _ h1
    obtain ⟨c2, hc2, rfl⟩ := process_ip_some_shape _ _ _ _ _ h2
    have hcc : c1 = c2 := Option.some_inj.mp (hc1.symm.trans hc2)
    subst hcc
    exact ⟨rfl, rfl, rfl⟩

/-- C6, witness: two distinct candidates with distinct latencies against
one accepting response. -/
theorem C6_candidate_independence_witness :
    ((process_ip "1.0.0.1" 443 (fun _ => none)
        ⟨true, 12, true, 150, "colo=SFO uag=Mozilla/5.0", true⟩).isSome =
     (process_ip "2.0.0.2" 8443 (fun _ => none)
        ⟨true, 99, true, 150, "colo=SFO uag=Mozilla/5.0", true⟩).isSome) ∧
    (∀ r1 r2,
      process_ip "1.0.0.1" 443 (fun _ => none)
        ⟨true, 12, true, 150, "colo=SFO uag=Mozilla/5.0", true⟩ = some r1 →
      process_ip "2.0.0.2" 8443 (fun _ => none)
        ⟨true, 99, true, 150, "colo=SFO uag=Mozilla/5.0", true⟩ = some r2 →
      r1.data_center = r2.data_center ∧ r1.region = r2.region ∧
        r1.city = r2.city) :=
  C6_candidate_independence "1.0.0.1" "2.0.0.2" 443 8443 12 99 (fun _ => none)
    ⟨true, 0, true, 150, "colo=SFO uag=Mozilla/5.0", true⟩ rfl

/-- C7: an extracted code absent from the location table still yields an
accepted record, its `region` and `city` resolved to the empty string; a
table entry lacking its `region` or `city` key resolves that field to the
empty string as well, never to an error. -/
theorem C7_unknown_location_empty (ip : String) (port : Nat) (m : LocationMap)
    (env : ProbeEnv) (code : List Char)
    (hconn : env.connOk = true) (hreq : env.reqOk = true)
    (ht : env.responseTime ≤ MAX_DURATION)
    (hmk : containsSub markerChars env.responseText.toList = true)
    (hcolo : searchColo env.responseText.toList = some code)
    (hpr : env.printOk = true) :
    ∃ r, process_ip ip port m env = some r ∧
      (m (String.mk code) = none → r.region = "" ∧ r.city = "") ∧
      (∀ l, m (String.mk code) = some l → l.region = none → r.region = "") ∧
      (∀ l, m (String.mk code) = some l → l.city = none → r.city = "") := by
  have ht2 : ¬ (MAX_DURATION < env.responseTime) := by omega
  simp only [String.toList] at hmk hcolo
  refine ⟨{ ip := ip, port := port, data_center := String.mk code,
            region := ((m (String.mk code)).bind Loc.region).getD "",
            city := ((m (String.mk code)).bind Loc.city).getD "",
            latency := formatLatency env.tcpDuration }, ?_, ?_, ?_, ?_⟩
  · simp [process_ip, process_ip_body, hconn, hreq, ht2, hmk, hcolo, hpr]
  · intro hm
    constructor <;> simp [hm]
  · intro l hm hre
    simp [hm, hre]
  · intro l hm hci
    simp [hm, hci]

/-- C7, witness: a response naming the code `ZZZ` against an empty table. -/
theorem C7_unknown_location_empty_witness :
    ∃ r, process_ip "1.0.0.1" 443 (fun _ => none)
        ⟨true, 12, true, 150, "colo=ZZZ uag=Mozilla/5.0", true⟩ = some r ∧
      ((fun (_ : String) => (none : Option Loc)) (String.mk ['Z', 'Z', 'Z']) = none →
        r.region = "" ∧ r.city = "") ∧
      (∀ l, (fun (_ : String) => (none : Option Loc)) (String.mk ['Z', 'Z', 'Z']) = some l →
        l.region = none → r.region = "") ∧
      (∀ l, (fun (_ : String) => (none : Option Loc)) (String.mk ['Z', 'Z', 'Z']) = some l →
        l.city = none → r.city = "") :=
  C7_unknown_location_empty "1.0.0.1" 443 (fun _ => none)
    ⟨true, 12, true, 150, "colo=ZZZ uag=Mozilla/5.0", true⟩ ['Z', 'Z', 'Z']
    rfl rfl (by decide) (by decide) (by decide) rfl

/-- C8: one operator's sink run leaves the derived output file holding the
fixed header row first — whatever file content existed before is gone —
then exactly one CSV row per accepted outcome, in completion order;
rejected (`None`) outcomes contribute no row, and with zero accepted
outcomes the file is exactly the header; other files are untouched. -/
theorem C8_sink_output (fs : FileSystem) (name : String)
    (outcomes : List (Option ResultRecord)) :
    runSink fs name outcomes name = some (writeResults outcomes) ∧
    writeResults outcomes = headerRow :: (outcomes.filterMap id).map toCsvRow ∧
    (writeResults outcomes).length = 1 + (outcomes.filter Option.isSome).length ∧
    (outcomes.filter Option.isSome = [] → writeResults outcomes = [headerRow]) ∧
    (∀ n, n ≠ name → runSink fs name outcomes n = fs n) := by
  refine ⟨?_, ?_, ?_, ?_, ?_⟩
  · simp [runSink]
  · rw [writeResults, List.map_filterMap]; rfl
  · simp [writeResults, length_accepted]; omega
  · intro h
    have hlen := length_accepted outcomes
    rw [h] at hlen
    simp only [List.length_nil] at hlen
    rw [writeResults, List.length_eq_zero.mp hlen]
  · intro n hn
    simp [runSink, prepare_output_file, hn]

/-- C8, witness: a run with one accepted and two rejected outcomes over a
file system where the output file already exists. -/
theorem C8_sink_output_witness :
    runSink (fun _ => some ["old"]) "ASN-EXAMPLE.csv" sampleOutcomes
        "ASN-EXAMPLE.csv"
      = some (writeResults sampleOutcomes) ∧
    writeResults sampleOutcomes
      = headerRow :: (sampleOutcomes.filterMap id).map toCsvRow ∧
    (writeResults sampleOutcomes).length
      = 1 + (sampleOutcomes.filter Option.isSome).length ∧
    (sampleOutcomes.filter Option.isSome = [] →
      writeResults sampleOutcomes = [headerRow]) ∧
    (∀ n, n ≠ "ASN-EXAMPLE.csv" →
      runSink (fun _ => some ["old"]) "ASN-EXAMPLE.csv" sampleOutcomes n
        = some ["old"]) :=
  C8_sink_output (fun _ => some ["old"]) "ASN-EXAMPLE.csv" sampleOutcomes

/-- C9: every accepted record's `latency` field is the formatted elapsed
time of the transport connection alone (`tcp_duration`, measured before
the validation request), rendered as a fixed-point number with exactly two
decimal digits, a space, and the unit label `ms`. -/
theorem C9_latency_format (ip : String) (port : Nat) (m : LocationMap)
    (env : ProbeEnv) (r : ResultRecord)
    (h : process_ip ip port m env = some r) :
    r.latency = formatLatency env.tcpDuration ∧
    formatLatency env.tcpDuration =
      toString (env.tcpDuration / 100) ++ "." ++
        twoDigits (env.tcpDuration % 100) ++ " ms" ∧
    (twoDigits (env.tcpDuration % 100)).length = 2 := by
  obtain ⟨c, hc, rfl⟩ := process_ip_some_shape _ _ _ _ _ h
  refine ⟨rfl, rfl, ?_⟩
  have hlt : env.tcpDuration % 100 < 100 := Nat.mod_lt _ (by norm_num)
  have hall : ∀ n < 100, (twoDigits n).length = 2 := by decide
  exact hall _ hlt

/-- C9, witness: an accepted probe with a 0.12-time-unit connection. -/
theorem C9_latency_format_witness :
    (ResultRecord.latency
        ⟨"1.0.0.1", 443, "SFO", "", "", "0.12 ms"⟩ = formatLatency 12) ∧
    formatLatency 12 = toString (12 / 100) ++ "." ++ twoDigits (12 % 100) ++ " ms" ∧
    (twoDigits (12 % 100)).length = 2 :=
  C9_latency_format "1.0.0.1" 443 (fun _ => none)
    ⟨true, 12, true, 150, "colo=SFO uag=Mozilla/5.0", true⟩
    ⟨"1.0.0.1", 443, "SFO", "", "", "0.12 ms"⟩ (by decide)

end Fp
